import Mathlib

/-!
Shallow embedding of the two construct builders of this repository:
the MemoryDB `User` construct (src/aws-memorydb/user.ts) and the FIS
`ExperimentTemplate` construct (src/aws-fis/experiment-template.ts).

TypeScript `throw new Error(msg)` is embedded as `Except.error msg`;
an `undefined`-able value is an `Option`; a CDK unresolved token is a
separate constructor of the input type, since `Token.isUnresolved` is
an external library predicate on deferred values. JavaScript truthiness
matters in two places and is embedded exactly: `!passwords` is true only
when the array is absent (an empty array is truthy), and
`if (this.props.passwords)` includes the `Passwords` key for any present
array, empty or not.
-/

namespace MemoryDbUser

/-- Authentication type enum (user.ts lines 47-57); the enum members carry
the string values "password" and "iam". -/
inductive AuthenticationType
  | password
  | iam
deriving DecidableEq, Repr

/-- The string value of the enum member, as used for the rendered `Type` key. -/
def authenticationTypeValue : AuthenticationType → String
  | .password => "password"
  | .iam => "iam"

/-- An opaque secret handle (aws-cdk-lib SecretValue); `unsafeUnwrap`
returns the raw string it wraps. -/
structure SecretValue where
  secretValue : String
deriving DecidableEq, Repr

/-- SecretValue.unsafeUnwrap: convert the opaque handle to its raw string. -/
def SecretValue.unsafeUnwrap (s : SecretValue) : String :=
  s.secretValue

/-- The `userName` prop: absent, an unresolved deferred token, or a literal
string. `Token.isUnresolved` from the external library distinguishes the
token case. -/
inductive NameInput
  | absent
  | token
  | literal (s : String)
deriving DecidableEq, Repr

/-- UserProps (user.ts lines 62-94). -/
structure UserProps where
  userName : NameInput
  accessString : Option String
  authenticationType : AuthenticationType
  passwords : Option (List SecretValue)
deriving DecidableEq, Repr

/-- Uppercase letter test, on code points: the regex class `A-Z`. -/
def isUpperAlpha (c : Char) : Bool :=
  decide (65 ≤ c.toNat ∧ c.toNat ≤ 90)

/-- Lowercase letter test, on code points: the regex class `a-z`. -/
def isLowerAlpha (c : Char) : Bool :=
  decide (97 ≤ c.toNat ∧ c.toNat ≤ 122)

/-- The regex class `[A-Za-z]`. -/
def isPatternLetter (c : Char) : Bool :=
  isUpperAlpha c || isLowerAlpha c

/-- Digit test, on code points: the regex class `0-9`. -/
def isPatternDigit (c : Char) : Bool :=
  decide (48 ≤ c.toNat ∧ c.toNat ≤ 57)

/-- The regex class `[A-Za-z0-9]`. -/
def isPatternAlnum (c : Char) : Bool :=
  isPatternLetter c || isPatternDigit c

/-- DFA tail for the user-name regex `^[A-Za-z][A-Za-z0-9]*(-[A-Za-z0-9]+)*$`
(user.ts line 251), run after the leading letter. `canEnd` is true inside a
segment (the string may stop here) and false right after a hyphen (at least
one alphanumeric character must follow). -/
def patAux : List Char → Bool → Bool
  | [], canEnd => canEnd
  | c :: rest, canEnd =>
    if c = '-' then canEnd && patAux rest false
    else isPatternAlnum c && patAux rest true

/-- Full-match test for the user-name regex
`^[A-Za-z][A-Za-z0-9]*(-[A-Za-z0-9]+)*$` (user.ts line 251): a leading
letter followed by alphanumeric segments separated by single hyphens,
not ending in a hyphen. -/
def userNamePattern (s : String) : Bool :=
  match s.toList with
  | [] => false
  | c :: rest => isPatternLetter c && patAux rest true

/-- validateUserName (user.ts lines 241-256): no-op when the name is an
unresolved token or absent; otherwise the length must be in [1,40] and the
name must match the user-name regex. -/
def validateUserName : NameInput → Except String Unit
  | .absent => .ok ()
  | .token => .ok ()
  | .literal userName =>
    if userName.length < 1 ∨ userName.length > 40 then
      .error "`userName` must be between 1 and 40 characters."
    else if userNamePattern userName = false then
      .error "`userName` must consist only of alphanumeric characters or hyphens, with the first character as a letter, and it cannot end with a hyphen or contain two consecutive hyphens."
    else .ok ()

/-- validateAuthenticationSettings (user.ts lines 261-275). The first guard
embeds the JavaScript test `!passwords`, which holds only when the array is
absent: an empty array is truthy, so `passwords: []` does not trigger it.
The second guard embeds `passwords` as a truthy test: any present array,
empty included, triggers it when the type is not PASSWORD. -/
def validateAuthenticationSettings (props : UserProps) : Except String Unit :=
  if props.authenticationType = AuthenticationType.password ∧ props.passwords = none then
    .error "At least one password must be set to `passwords` when `authenticationType` is set to `AuthenticationType.PASSWORD`."
  else if props.authenticationType ≠ AuthenticationType.password ∧ props.passwords ≠ none then
    .error "`passwords` can only be set when `authenticationType` is set to `AuthenticationType.PASSWORD`."
  else .ok ()

/-- The rendered `authenticationMode` property bag (user.ts lines 226-236).
The source object keys are `Type` and `Passwords`; `Type` is a Lean keyword,
so the fields are named `typeKey` and `passwordsKey`. -/
structure AuthenticationMode where
  typeKey : String
  passwordsKey : Option (List String)
deriving DecidableEq, Repr

/-- renderAuthenticationMode (user.ts lines 226-236): `{Type}` always, and
the `Passwords` key exactly when `this.props.passwords` is truthy, i.e. the
array is present (even empty), holding the unwrapped raw strings. -/
def renderAuthenticationMode (props : UserProps) : AuthenticationMode :=
  { typeKey := authenticationTypeValue props.authenticationType
    passwordsKey := props.passwords.map (fun ps => ps.map SecretValue.unsafeUnwrap) }

/-- The `userName` value passed to the create call: the prop when supplied
(literal or token), else the lazily auto-generated physical name
(`this.props.userName ?? this.physicalName`, user.ts line 208). -/
inductive RenderedName
  | explicitName (s : String)
  | tokenName
  | autoName
deriving DecidableEq, Repr

/-- Resolution of the rendered user name from the `userName` prop. -/
def renderedUserName : NameInput → RenderedName
  | .literal s => .explicitName s
  | .token => .tokenName
  | .absent => .autoName

/-- The property bag of the single external create call (user.ts
lines 207-211, aws_memorydb.CfnUserProps). -/
structure CfnUserProps where
  userName : RenderedName
  accessString : String
  authenticationMode : AuthenticationMode
deriving DecidableEq, Repr

/-- The prop bag built at user.ts lines 207-211: userName from the prop or
the physical name, accessString defaulted to "off -@all", and the rendered
authentication mode. -/
def renderUserProps (props : UserProps) : CfnUserProps :=
  { userName := renderedUserName props.userName
    accessString := props.accessString.getD "off -@all"
    authenticationMode := renderAuthenticationMode props }

/-- The User constructor body (user.ts lines 194-215): validateUserName,
then validateAuthenticationSettings, and only after both pass the single
`createResource` call. The result pairs the created resource props with
the list of external create calls issued during construction; a thrown
validation error aborts before any call. -/
def userConstruct (props : UserProps) : Except String (CfnUserProps × List CfnUserProps) :=
  match validateUserName props.userName with
  | .error e => .error e
  | .ok _ =>
    match validateAuthenticationSettings props with
    | .error e => .error e
    | .ok _ =>
      let rendered := renderUserProps props
      .ok (rendered, [rendered])

/-- The external create calls observable from a construction attempt:
none when construction threw, the recorded list when it returned. -/
def userExternalCalls (props : UserProps) : List CfnUserProps :=
  match userConstruct props with
  | .ok r => r.2
  | .error _ => []

/-- Attributes for importing a User (user.ts lines 99-104). -/
structure UserAttributes where
  userName : String
deriving DecidableEq, Repr

/-- The argument record of Stack.formatArn as used here: only a service and
a resource segment, and no resource name. -/
structure ArnComponents where
  service : String
  resource : String
  resourceName : Option String
deriving DecidableEq, Repr

/-- The imported read-only handle returned by fromUserAttributes. -/
structure ImportedUser where
  userName : String
  userArn : String
deriving DecidableEq, Repr

/-- fromUserAttributes (user.ts lines 113-122): the handle's userName is the
supplied attribute, and its userArn is `Stack.of(this).formatArn({service:
"memorydb", resource: "user"})`. The stack's ARN formatting function is an
external collaborator, passed here as `formatArn`; within one stack it is
one and the same function. Note the format call receives no resourceName. -/
def fromUserAttributes (formatArn : ArnComponents → String) (attrs : UserAttributes) : ImportedUser :=
  { userName := attrs.userName
    userArn := formatArn { service := "memorydb", resource := "user", resourceName := none } }

end MemoryDbUser

namespace FisExperimentTemplate

/-- An IAM role reference (aws_iam.IRole), known by its roleArn. -/
structure RoleRef where
  roleArn : String
deriving DecidableEq, Repr

/-- A CloudWatch alarm reference (aws_cloudwatch.IAlarm), known by its
alarmArn. -/
structure AlarmRef where
  alarmArn : String
deriving DecidableEq, Repr

/-- A log-group reference (aws_logs.ILogGroup), known by its logGroupArn. -/
structure LogGroupRef where
  logGroupArn : String
deriving DecidableEq, Repr

/-- An S3 bucket reference (aws_s3.IBucket), known by its bucketArn. -/
structure BucketRef where
  bucketArn : String
deriving DecidableEq, Repr

/-- An opaque IFisTarget element of the `targets` prop. -/
structure FisTargetRef where
  targetName : String
deriving DecidableEq, Repr

/-- An opaque IFisAction element of the `actions` prop. -/
structure FisActionRef where
  actionName : String
deriving DecidableEq, Repr

/-- StopCondition (experiment-template.ts lines 15-18): a source and an
optional alarm reference. -/
structure StopConditionInput where
  source : String
  value : Option AlarmRef
deriving DecidableEq, Repr

/-- AccountTargeting enum (experiment-template.ts lines 29-32). -/
inductive AccountTargeting
  | multiAccount
  | singleAccount
deriving DecidableEq, Repr

/-- EmptyTargetResolutionMode enum (experiment-template.ts lines 34-37). -/
inductive EmptyTargetResolutionMode
  | fail
  | skip
deriving DecidableEq, Repr

/-- LogConfiguration (experiment-template.ts lines 20-27). The source field
`s3LoggingPrefix` is embedded as `s3LoggingPrefixValue`. -/
structure LogConfiguration where
  logSchemaVersion : Nat
  cloudWatchLogLoggingEnabled : Bool
  cloudwatchLogGroup : Option LogGroupRef
  s3LoggingEnabled : Bool
  s3LoggingBucket : Option BucketRef
  s3LoggingPrefixValue : Option String
deriving DecidableEq, Repr

/-- ExperimentTemplateProps (experiment-template.ts lines 39-48). The TS
type declares `role` required, but the constructor guards it with
`props.role || ...`, so it is embedded as an Option to cover the guarded
absent case. -/
structure ExperimentTemplateProps where
  description : String
  role : Option RoleRef
  stopConditions : List StopConditionInput
  targets : List FisTargetRef
  actions : Option (List FisActionRef)
  accountTargeting : AccountTargeting
  emptyTargetResolutionMode : EmptyTargetResolutionMode
  logConfiguration : Option LogConfiguration
deriving DecidableEq, Repr

/-- The role auto-created at experiment-template.ts lines 64-66, identified
by its synth-time ARN token. -/
def autoRole : RoleRef :=
  { roleArn := "AutoCreated.Role.roleArn" }

/-- The log group auto-created at experiment-template.ts lines 69-71. -/
def autoLogGroup : LogGroupRef :=
  { logGroupArn := "AutoCreated.AppLogs.logGroupArn" }

/-- The bucket auto-created at experiment-template.ts lines 75-77. -/
def autoBucket : BucketRef :=
  { bucketArn := "AutoCreated.ArtifactsBucket.bucketArn" }

/-- Record of one auxiliary role creation: the service principal it is
scoped to assume. -/
structure RoleCreation where
  assumedBy : String
deriving DecidableEq, Repr

/-- Record of one auxiliary log-group creation: its retention in days
(RetentionDays.ONE_MONTH = 30). -/
structure LogGroupCreation where
  retentionDays : Nat
deriving DecidableEq, Repr

/-- Record of one auxiliary bucket creation: its encryption mode. -/
structure BucketCreation where
  encryption : String
deriving DecidableEq, Repr

/-- The instance fields assigned by the constructor before the create call
(experiment-template.ts lines 54-78), together with the trace of auxiliary
resources created while resolving defaults. `cloudWatchLogsGroup` and
`s3LoggingBucket` stay `none` exactly when their assignment was skipped
(the channel's enabled flag was false or logConfiguration was absent). -/
structure FisResolved where
  fisRole : RoleRef
  cloudWatchLogsGroup : Option LogGroupRef
  s3LoggingBucket : Option BucketRef
  createdRoles : List RoleCreation
  createdLogGroups : List LogGroupCreation
  createdBuckets : List BucketCreation
deriving DecidableEq, Repr

/-- Default resolution performed by the constructor (experiment-template.ts
lines 63-78): `this.fisRole = props.role || new Role(assumedBy
pipes.amazonaws.com)`; the log group is assigned only under
`logConfiguration?.cloudWatchLogLoggingEnabled`, from the explicit reference
or a fresh one-month-retention group; the bucket only under
`logConfiguration?.s3LoggingEnabled`, from the explicit reference or a fresh
KMS-managed-encryption bucket. -/
def resolveDefaults (props : ExperimentTemplateProps) : FisResolved :=
  let roleRes : RoleRef × List RoleCreation :=
    match props.role with
    | some r => (r, [])
    | none => (autoRole, [{ assumedBy := "pipes.amazonaws.com" }])
  let cwRes : Option LogGroupRef × List LogGroupCreation :=
    match props.logConfiguration with
    | some lc =>
      if lc.cloudWatchLogLoggingEnabled then
        match lc.cloudwatchLogGroup with
        | some g => (some g, [])
        | none => (some autoLogGroup, [{ retentionDays := 30 }])
      else (none, [])
    | none => (none, [])
  let s3Res : Option BucketRef × List BucketCreation :=
    match props.logConfiguration with
    | some lc =>
      if lc.s3LoggingEnabled then
        match lc.s3LoggingBucket with
        | some b => (some b, [])
        | none => (some autoBucket, [{ encryption := "KMS_MANAGED" }])
      else (none, [])
    | none => (none, [])
  { fisRole := roleRes.1
    cloudWatchLogsGroup := cwRes.1
    s3LoggingBucket := s3Res.1
    createdRoles := roleRes.2
    createdLogGroups := cwRes.2
    createdBuckets := s3Res.2 }

/-- A rendered stop condition (ExperimentTemplateStopConditionProperty):
source, and the alarm ARN when an alarm reference was given. -/
structure RenderedStopCondition where
  source : String
  value : Option String
deriving DecidableEq, Repr

/-- renderConditions (experiment-template.ts lines 130-135): map each stop
condition to `{source: s.source, value: s.value?.alarmArn}`. -/
def renderConditions (stopConditions : List StopConditionInput) : List RenderedStopCondition :=
  stopConditions.map (fun s => { source := s.source, value := s.value.map AlarmRef.alarmArn })

/-- One filter entry of the literal targets block. -/
structure TargetFilter where
  path : String
  values : List String
deriving DecidableEq, Repr

/-- One entry of the rendered `targets` map. -/
structure RenderedTarget where
  resourceType : String
  selectionMode : String
  filters : List TargetFilter
  parameters : List (String × String)
  resourceArns : List String
  resourceTags : List (String × String)
deriving DecidableEq, Repr

/-- One entry of the rendered `actions` map. -/
structure RenderedAction where
  actionId : String
  description : String
  parameters : List (String × String)
  startAfter : List String
  targets : List (String × String)
deriving DecidableEq, Repr

/-- The literal `targets` block of the create call (experiment-template.ts
lines 88-106): a fixed placeholder map under the key "tartsKey", written out
verbatim in the source. -/
def fixedTargets : List (String × RenderedTarget) :=
  [("tartsKey",
    { resourceType := "resourceType"
      selectionMode := "selectionMode"
      filters := [{ path := "path", values := ["values"] }]
      parameters := [("parametersKey", "parameters")]
      resourceArns := ["resourceArns"]
      resourceTags := [("resourceTagsKey", "resourceTags")] })]

/-- The literal `actions` block of the create call (experiment-template.ts
lines 107-121): a fixed placeholder map under the key "actionsKey", written
out verbatim in the source. -/
def fixedActions : List (String × RenderedAction) :=
  [("actionsKey",
    { actionId := "actionId"
      description := "description"
      parameters := [("parametersKey", "parameters")]
      startAfter := ["startAfter"]
      targets := [("targetsKey", "targets")] })]

/-- The rendered cloudwatch sub-block of the log configuration. -/
structure CloudWatchLogsConfigurationProperty where
  logGroupArn : String
deriving DecidableEq, Repr

/-- The rendered s3 sub-block of the log configuration; the source key
`prefix` is embedded as `prefixValue`. -/
structure S3ConfigurationProperty where
  bucketName : String
  prefixValue : Option String
deriving DecidableEq, Repr

/-- The rendered log configuration
(ExperimentTemplateLogConfigurationProperty). -/
structure RenderedLogConfiguration where
  logSchemaVersion : Nat
  cloudWatchLogsConfiguration : CloudWatchLogsConfigurationProperty
  s3Configuration : S3ConfigurationProperty
deriving DecidableEq, Repr

/-- renderLogConfiguration (experiment-template.ts lines 137-148). The
source reads `this.cloudWatchLogsGroup.logGroupArn` and
`this.s3LoggingBucket.bucketArn` with no guard; when the field was never
assigned (its channel's enabled flag was false at construction) the read
throws a TypeError on undefined, embedded as `.error`. Both sub-blocks are
built unconditionally, and the s3 `prefix` comes from
`this.props.logConfiguration?.s3LoggingPrefix`. -/
def renderLogConfiguration (st : FisResolved) (props : ExperimentTemplateProps)
    (lc : LogConfiguration) : Except String RenderedLogConfiguration :=
  match st.cloudWatchLogsGroup with
  | none => .error "TypeError: Cannot read properties of undefined (reading logGroupArn)"
  | some g =>
    match st.s3LoggingBucket with
    | none => .error "TypeError: Cannot read properties of undefined (reading bucketArn)"
    | some b =>
      .ok { logSchemaVersion := lc.logSchemaVersion
            cloudWatchLogsConfiguration := { logGroupArn := g.logGroupArn }
            s3Configuration :=
              { bucketName := b.bucketArn
                prefixValue := props.logConfiguration.bind LogConfiguration.s3LoggingPrefixValue } }

/-- The `experimentOptions` block of the create call. -/
structure ExperimentOptions where
  accountTargeting : AccountTargeting
  emptyTargetResolutionMode : EmptyTargetResolutionMode
deriving DecidableEq, Repr

/-- The property bag of the single external create call
(aws_fis.CfnExperimentTemplateProps, experiment-template.ts lines 84-127). -/
structure CfnExperimentTemplateProps where
  description : String
  roleArn : String
  stopConditions : List RenderedStopCondition
  targets : List (String × RenderedTarget)
  actions : List (String × RenderedAction)
  experimentOptions : ExperimentOptions
  logConfiguration : Option RenderedLogConfiguration
deriving DecidableEq, Repr

/-- createExperimentTemplate (experiment-template.ts lines 83-128):
description and roleArn from the resolved state, rendered stop conditions,
the fixed literal targets and actions blocks, the experiment options, and
the rendered log configuration exactly when the prop is present. -/
def createExperimentTemplate (st : FisResolved) (props : ExperimentTemplateProps) :
    Except String CfnExperimentTemplateProps :=
  match props.logConfiguration with
  | some lc =>
    match renderLogConfiguration st props lc with
    | .error e => .error e
    | .ok rendered =>
      .ok { description := props.description
            roleArn := st.fisRole.roleArn
            stopConditions := renderConditions props.stopConditions
            targets := fixedTargets
            actions := fixedActions
            experimentOptions :=
              { accountTargeting := props.accountTargeting
                emptyTargetResolutionMode := props.emptyTargetResolutionMode }
            logConfiguration := some rendered }
  | none =>
    .ok { description := props.description
          roleArn := st.fisRole.roleArn
          stopConditions := renderConditions props.stopConditions
          targets := fixedTargets
          actions := fixedActions
          experimentOptions :=
            { accountTargeting := props.accountTargeting
              emptyTargetResolutionMode := props.emptyTargetResolutionMode }
          logConfiguration := none }

/-- The ExperimentTemplate constructor (experiment-template.ts lines 59-81):
resolve defaults (creating auxiliary resources), then issue the create
call; a TypeError thrown while rendering aborts construction. -/
def constructExperimentTemplate (props : ExperimentTemplateProps) :
    Except String (FisResolved × CfnExperimentTemplateProps) :=
  let st := resolveDefaults props
  match createExperimentTemplate st props with
  | .error e => .error e
  | .ok r => .ok (st, r)

end FisExperimentTemplate

namespace MemoryDbUser

/-- Statement vocabulary: a character list contains two consecutive
hyphens. -/
def hasDoubleHyphen : List Char → Bool
  | c :: d :: rest => (c = '-' && d = '-') || hasDoubleHyphen (d :: rest)
  | _ => false

end MemoryDbUser

namespace FisExperimentTemplate

/-- Concrete input A for the targets/actions divergence: one target named
t1 and one action named a1. -/
def targetsPropsA : ExperimentTemplateProps :=
  { description := "d"
    role := some { roleArn := "arn:role" }
    stopConditions := []
    targets := [{ targetName := "t1" }]
    actions := some [{ actionName := "a1" }]
    accountTargeting := AccountTargeting.singleAccount
    emptyTargetResolutionMode := EmptyTargetResolutionMode.fail
    logConfiguration := none }

/-- Concrete input B for the targets/actions divergence: one target named
t2 and no actions, otherwise identical to input A. -/
def targetsPropsB : ExperimentTemplateProps :=
  { description := "d"
    role := some { roleArn := "arn:role" }
    stopConditions := []
    targets := [{ targetName := "t2" }]
    actions := none
    accountTargeting := AccountTargeting.singleAccount
    emptyTargetResolutionMode := EmptyTargetResolutionMode.fail
    logConfiguration := none }

/-- Log configuration whose cloudwatch channel is disabled while the s3
channel is enabled with an explicit bucket. -/
def cwDisabledLogConfig : LogConfiguration :=
  { logSchemaVersion := 2
    cloudWatchLogLoggingEnabled := false
    cloudwatchLogGroup := none
    s3LoggingEnabled := true
    s3LoggingBucket := some { bucketArn := "arn:bucket" }
    s3LoggingPrefixValue := some "pre" }

/-- Concrete input with logConfiguration present and the cloudwatch
channel's enabled flag false. -/
def cwDisabledProps : ExperimentTemplateProps :=
  { description := "d"
    role := some { roleArn := "arn:role" }
    stopConditions := []
    targets := []
    actions := none
    accountTargeting := AccountTargeting.singleAccount
    emptyTargetResolutionMode := EmptyTargetResolutionMode.fail
    logConfiguration := some cwDisabledLogConfig }

/-- Log configuration with both channels enabled and explicit references. -/
def bothEnabledLogConfig : LogConfiguration :=
  { logSchemaVersion := 2
    cloudWatchLogLoggingEnabled := true
    cloudwatchLogGroup := some { logGroupArn := "arn:lg" }
    s3LoggingEnabled := true
    s3LoggingBucket := some { bucketArn := "arn:bucket" }
    s3LoggingPrefixValue := some "pre" }

/-- Concrete input with logConfiguration present and both channels
enabled. -/
def bothEnabledProps : ExperimentTemplateProps :=
  { description := "d"
    role := some { roleArn := "arn:role" }
    stopConditions := []
    targets := []
    actions := none
    accountTargeting := AccountTargeting.singleAccount
    emptyTargetResolutionMode := EmptyTargetResolutionMode.fail
    logConfiguration := some bothEnabledLogConfig }

/-- Concrete input with no explicit role and no log configuration. -/
def roleNoneProps : ExperimentTemplateProps :=
  { description := "d"
    role := none
    stopConditions := []
    targets := []
    actions := none
    accountTargeting := AccountTargeting.singleAccount
    emptyTargetResolutionMode := EmptyTargetResolutionMode.fail
    logConfiguration := none }

/-- Concrete input with an explicit role and no log configuration. -/
def roleSomeProps : ExperimentTemplateProps :=
  { description := "d"
    role := some { roleArn := "arn:explicit-role" }
    stopConditions := []
    targets := []
    actions := none
    accountTargeting := AccountTargeting.singleAccount
    emptyTargetResolutionMode := EmptyTargetResolutionMode.fail
    logConfiguration := none }

end FisExperimentTemplate

namespace MemoryDbUser

/-- A pattern letter is never the hyphen character. -/
lemma isPatternLetter_ne_hyphen (c : Char) (h : isPatternLetter c = true) : c ≠ '-' := by
  intro hc
  subst hc
  exact absurd h (by decide)

/-- A digit character is not a pattern letter. -/
lemma isPatternDigit_not_letter (c : Char) (h : isPatternDigit c = true) :
    isPatternLetter c = false := by
  simp only [isPatternDigit, decide_eq_true_eq] at h
  simp only [isPatternLetter, isUpperAlpha, isLowerAlpha, Bool.or_eq_false_iff,
    decide_eq_false_iff_not]
  omega

/-- A list accepted by the pattern tail automaton has no two consecutive
hyphens. -/
lemma patAux_no_double_hyphen (l : List Char) :
    ∀ canEnd, patAux l canEnd = true → hasDoubleHyphen l = false := by
  induction l with
  | nil => intro canEnd _; rfl
  | cons c rest ih =>
    intro canEnd h
    cases rest with
    | nil => rfl
    | cons d r2 =>
      unfold patAux at h
      by_cases hc : c = '-'
      · simp only [hc, if_true, Bool.and_eq_true] at h
        have hd : d ≠ '-' := by
          intro hd
          rw [hd] at h
          simp [patAux] at h
        have htail := ih false h.2
        simp [hasDoubleHyphen, hd, htail]
      · simp only [hc, if_false, Bool.and_eq_true] at h
        have htail := ih true h.2
        simp [hasDoubleHyphen, hc, htail]

/-- A list accepted by the pattern tail automaton does not end in a
hyphen. -/
lemma patAux_getLast_ne_hyphen (l : List Char) :
    ∀ canEnd, patAux l canEnd = true → l.getLast? ≠ some '-' := by
  induction l with
  | nil => intro canEnd _ hlast; simp at hlast
  | cons c rest ih =>
    intro canEnd h
    cases rest with
    | nil =>
      unfold patAux at h
      by_cases hc : c = '-'
      · rw [hc] at h
        simp [patAux] at h
      · simp [List.getLast?, hc]
    | cons d r2 =>
      have hrest : ∃ ce, patAux (d :: r2) ce = true := by
        unfold patAux at h
        by_cases hc : c = '-'
        · simp only [hc, if_true, Bool.and_eq_true] at h
          exact ⟨false, h.2⟩
        · simp only [hc, if_false, Bool.and_eq_true] at h
          exact ⟨true, h.2⟩
      obtain ⟨ce, hce⟩ := hrest
      have := ih ce hce
      simpa [List.getLast?_cons_cons] using this

/-- Decomposition of a string accepted by the full user-name pattern. -/
lemma userNamePattern_eq_true (s : String) (h : userNamePattern s = true) :
    ∃ c rest, s.toList = c :: rest ∧ isPatternLetter c = true ∧ patAux rest true = true := by
  unfold userNamePattern at h
  cases hl : s.toList with
  | nil => rw [hl] at h; simp at h
  | cons c rest =>
    rw [hl] at h
    simp only [Bool.and_eq_true] at h
    exact ⟨c, rest, rfl, h.1, h.2⟩

end MemoryDbUser

namespace MemoryDbUser

/-- C4: validateUserName is a no-op when the name is absent or an
unresolved token; otherwise every name of length 0 or greater than 40, or
containing two consecutive hyphens, or starting or ending with a hyphen, or
starting with a digit, fails with a validation error, and every name of
length in [1,40] matching the user-name pattern succeeds. -/
theorem validateUserName_spec :
    (validateUserName NameInput.absent = Except.ok () ∧
     validateUserName NameInput.token = Except.ok ()) ∧
    (∀ s : String,
       s.length = 0 ∨ 40 < s.length ∨ hasDoubleHyphen s.toList = true ∨
         s.toList.head? = some '-' ∨ s.toList.getLast? = some '-' ∨
         (∃ c, s.toList.head? = some c ∧ isPatternDigit c = true) →
       ∃ e, validateUserName (NameInput.literal s) = Except.error e) ∧
    (∀ s : String, 1 ≤ s.length → s.length ≤ 40 → userNamePattern s = true →
       validateUserName (NameInput.literal s) = Except.ok ()) := by
  refine ⟨⟨rfl, rfl⟩, ?_, ?_⟩
  · intro s hfeat
    by_cases hlen : s.length < 1 ∨ s.length > 40
    · exact ⟨_, by simp only [validateUserName]; rw [if_pos hlen]⟩
    · have hpat : userNamePattern s = false := by
        cases hp : userNamePattern s with
        | false => rfl
        | true =>
          exfalso
          obtain ⟨c, rest, hl, hletter, htail⟩ := userNamePattern_eq_true s hp
          push_neg at hlen
          rcases hfeat with h0 | h40 | hdd | hhead | hlast | ⟨d, hd, hdig⟩
          · omega
          · omega
          · rw [hl] at hdd
            cases rest with
            | nil => simp [hasDoubleHyphen] at hdd
            | cons d r2 =>
              have hc := isPatternLetter_ne_hyphen c hletter
              have hrest := patAux_no_double_hyphen (d :: r2) true htail
              simp [hasDoubleHyphen, hc, hrest] at hdd
          · rw [hl] at hhead
            simp at hhead
            exact isPatternLetter_ne_hyphen c hletter hhead
          · rw [hl] at hlast
            cases rest with
            | nil =>
              simp [List.getLast?] at hlast
              exact isPatternLetter_ne_hyphen c hletter hlast
            | cons d r2 =>
              rw [List.getLast?_cons_cons] at hlast
              exact patAux_getLast_ne_hyphen (d :: r2) true htail hlast
          · rw [hl] at hd
            simp at hd
            subst hd
            rw [isPatternDigit_not_letter c hdig] at hletter
            exact Bool.false_ne_true hletter
      exact ⟨_, by simp only [validateUserName]; rw [if_neg hlen, if_pos hpat]⟩
  · intro s h1 h40 hpat
    have hlen : ¬(s.length < 1 ∨ s.length > 40) := by omega
    have hp : ¬(userNamePattern s = false) := by simp [hpat]
    simp only [validateUserName]
    rw [if_neg hlen, if_neg hp]

/-- Witness for C4 at the concrete names "a--b" (rejected for its double
hyphen) and "alice-1" (accepted). -/
theorem validateUserName_spec_witness :
    (∃ e, validateUserName (NameInput.literal "a--b") = Except.error e) ∧
    validateUserName (NameInput.literal "alice-1") = Except.ok () :=
  ⟨validateUserName_spec.2.1 "a--b" (Or.inr (Or.inr (Or.inl (by decide)))),
   validateUserName_spec.2.2 "alice-1" (by decide) (by decide) (by decide)⟩

/-- C1: with authenticationType PASSWORD and an explicitly supplied empty
credential list, validateAuthenticationSettings passes and construction
issues the create call, because the JavaScript guard checks only absence
(an empty array is truthy); the claim, the prop documentation and the
validation's own error message require this input to fail. -/
theorem password_empty_credentials_accepted :
    validateAuthenticationSettings
        { userName := NameInput.absent, accessString := none,
          authenticationType := AuthenticationType.password, passwords := some [] }
      = Except.ok () ∧
    ∃ r, userConstruct
        { userName := NameInput.absent, accessString := none,
          authenticationType := AuthenticationType.password, passwords := some [] }
      = Except.ok r :=
  ⟨rfl, ⟨_, rfl⟩⟩

/-- C5: construction is atomic with respect to the external create call:
either a validation throws and no external call was made, or both
validations pass and exactly one external create call is issued. -/
theorem user_construction_atomic (props : UserProps) :
    (∃ e, userConstruct props = Except.error e ∧ userExternalCalls props = []) ∨
    (∃ rendered, userConstruct props = Except.ok (rendered, [rendered]) ∧
       (userExternalCalls props).length = 1) := by
  cases h1 : validateUserName props.userName with
  | error e =>
    exact Or.inl ⟨e, by simp [userConstruct, h1],
      by simp [userExternalCalls, userConstruct, h1]⟩
  | ok u =>
    cases h2 : validateAuthenticationSettings props with
    | error e =>
      exact Or.inl ⟨e, by simp [userConstruct, h1, h2],
        by simp [userExternalCalls, userConstruct, h1, h2]⟩
    | ok v =>
      exact Or.inr ⟨renderUserProps props, by simp [userConstruct, h1, h2],
        by simp [userExternalCalls, userConstruct, h1, h2]⟩

/-- C7: the rendered authentication descriptor carries the authentication
type's string value, carries the Passwords key exactly when a credential
list was supplied, holds the unwrapped raw secret strings when it does,
and the PASSWORD/["secretA"] scenario renders Type "password" with
Passwords ["secretA"]. -/
theorem renderAuthenticationMode_spec (props : UserProps) :
    (renderAuthenticationMode props).typeKey
        = authenticationTypeValue props.authenticationType ∧
    ((renderAuthenticationMode props).passwordsKey = none ↔ props.passwords = none) ∧
    (∀ ps, props.passwords = some ps →
       (renderAuthenticationMode props).passwordsKey
         = some (ps.map SecretValue.unsafeUnwrap)) ∧
    renderAuthenticationMode
        { userName := NameInput.absent, accessString := none,
          authenticationType := AuthenticationType.password,
          passwords := some [{ secretValue := "secretA" }] }
      = { typeKey := "password", passwordsKey := some ["secretA"] } := by
  refine ⟨rfl, ?_, ?_, rfl⟩
  · cases h : props.passwords <;> simp [renderAuthenticationMode, h]
  · intro ps h
    simp [renderAuthenticationMode, h]

/-- Witness for C7 at a concrete two-secret credential list. -/
theorem renderAuthenticationMode_spec_witness :
    (renderAuthenticationMode
        { userName := NameInput.absent, accessString := none,
          authenticationType := AuthenticationType.password,
          passwords := some [{ secretValue := "s1" }, { secretValue := "s2" }] }).passwordsKey
      = some ["s1", "s2"] :=
  (renderAuthenticationMode_spec _).2.2.1
    [{ secretValue := "s1" }, { secretValue := "s2" }] rfl

/-- C8: rendering the explicit alice-1 / "on ~* +@all" / IAM configuration
yields exactly that user name, that access string and authentication mode
Type "iam"; and whenever accessString is absent the rendered access string
is the fully-restrictive default "off -@all". -/
theorem user_render_roundtrip :
    renderUserProps
        { userName := NameInput.literal "alice-1", accessString := some "on ~* +@all",
          authenticationType := AuthenticationType.iam, passwords := none }
      = { userName := RenderedName.explicitName "alice-1", accessString := "on ~* +@all",
          authenticationMode := { typeKey := "iam", passwordsKey := none } } ∧
    (∀ props : UserProps, props.accessString = none →
       (renderUserProps props).accessString = "off -@all") := by
  refine ⟨rfl, ?_⟩
  intro props h
  simp [renderUserProps, h]

/-- Witness for C8 at a concrete configuration with no access string. -/
theorem user_render_roundtrip_witness :
    (renderUserProps
        { userName := NameInput.absent, accessString := none,
          authenticationType := AuthenticationType.iam, passwords := none }).accessString
      = "off -@all" :=
  user_render_roundtrip.2 _ rfl

/-- C10: two imports in the same stack (one and the same ARN formatting
function) always get the same userArn, built only from the fixed service
and resource segments, while each handle's userName is the supplied
attribute. -/
theorem fromUserAttributes_arn_ignores_name (formatArn : ArnComponents → String)
    (a b : UserAttributes) :
    (fromUserAttributes formatArn a).userArn = (fromUserAttributes formatArn b).userArn ∧
    (fromUserAttributes formatArn a).userName = a.userName :=
  ⟨rfl, rfl⟩

end MemoryDbUser

namespace FisExperimentTemplate

/-- A successful create call copies its roleArn from the resolved role. -/
lemma createExperimentTemplate_roleArn (st : FisResolved) (props : ExperimentTemplateProps)
    (r : CfnExperimentTemplateProps) (h : createExperimentTemplate st props = Except.ok r) :
    r.roleArn = st.fisRole.roleArn := by
  unfold createExperimentTemplate at h
  split at h
  · split at h
    · simp at h
    · simp only [Except.ok.injEq] at h
      rw [← h]
  · simp only [Except.ok.injEq] at h
    rw [← h]

/-- A successful construction decomposes into default resolution followed
by a successful create call on the resolved state. -/
lemma constructExperimentTemplate_ok (props : ExperimentTemplateProps) (st : FisResolved)
    (r : CfnExperimentTemplateProps)
    (h : constructExperimentTemplate props = Except.ok (st, r)) :
    st = resolveDefaults props ∧
      createExperimentTemplate (resolveDefaults props) props = Except.ok r := by
  simp only [constructExperimentTemplate] at h
  split at h
  · simp at h
  · rename_i r2 heq
    simp only [Except.ok.injEq, Prod.mk.injEq] at h
    obtain ⟨h1, h2⟩ := h
    subst h2
    exact ⟨h1.symm, heq⟩

/-- C9: renderConditions preserves length and order, maps each stop
condition to its source paired with the alarm reference's ARN, and renders
the value absent when no alarm reference was given. -/
theorem renderConditions_spec (l : List StopConditionInput) :
    (renderConditions l).length = l.length ∧
    (∀ i : Nat, (renderConditions l)[i]? =
       (l[i]?).map (fun s => { source := s.source, value := s.value.map AlarmRef.alarmArn })) ∧
    (∀ (i : Nat) (s : StopConditionInput), l[i]? = some s → s.value = none →
       (renderConditions l)[i]? = some { source := s.source, value := none }) := by
  refine ⟨by simp [renderConditions], ?_, ?_⟩
  · intro i
    simp [renderConditions]
  · intro i s h hv
    simp [renderConditions, h, hv]

/-- Witness for C9 at a one-element list whose condition has no alarm. -/
theorem renderConditions_spec_witness :
    (renderConditions [{ source := "aborted", value := none }]).length = 1 ∧
    (renderConditions [{ source := "aborted", value := none }])[0]?
      = some { source := "aborted", value := none } :=
  ⟨(renderConditions_spec _).1, (renderConditions_spec _).2.2 0 _ rfl rfl⟩

/-- C6: with no explicit role, exactly one auxiliary role scoped to assume
the designated service principal is created and the rendered template's
roleArn references that role's ARN; with an explicit role, it is used and
no auxiliary role is created. -/
theorem experiment_role_resolution (props : ExperimentTemplateProps) :
    (props.role = none →
       (resolveDefaults props).fisRole = autoRole ∧
       (resolveDefaults props).createdRoles = [{ assumedBy := "pipes.amazonaws.com" }] ∧
       (∀ st r, constructExperimentTemplate props = Except.ok (st, r) →
          r.roleArn = autoRole.roleArn)) ∧
    (∀ x, props.role = some x →
       (resolveDefaults props).fisRole = x ∧
       (resolveDefaults props).createdRoles = [] ∧
       (∀ st r, constructExperimentTemplate props = Except.ok (st, r) →
          r.roleArn = x.roleArn)) := by
  constructor
  · intro hrole
    have hfis : (resolveDefaults props).fisRole = autoRole := by
      simp [resolveDefaults, hrole]
    refine ⟨hfis, by simp [resolveDefaults, hrole], ?_⟩
    intro st r h
    obtain ⟨hst, hcr⟩ := constructExperimentTemplate_ok props st r h
    rw [createExperimentTemplate_roleArn _ _ _ hcr, hfis]
  · intro x hrole
    have hfis : (resolveDefaults props).fisRole = x := by
      simp [resolveDefaults, hrole]
    refine ⟨hfis, by simp [resolveDefaults, hrole], ?_⟩
    intro st r h
    obtain ⟨hst, hcr⟩ := constructExperimentTemplate_ok props st r h
    rw [createExperimentTemplate_roleArn _ _ _ hcr, hfis]

/-- Witness for C6 at concrete inputs with and without an explicit role. -/
theorem experiment_role_resolution_witness :
    (resolveDefaults roleNoneProps).fisRole = autoRole ∧
    (resolveDefaults roleNoneProps).createdRoles = [{ assumedBy := "pipes.amazonaws.com" }] ∧
    (resolveDefaults roleSomeProps).createdRoles = [] :=
  ⟨((experiment_role_resolution roleNoneProps).1 rfl).1,
   ((experiment_role_resolution roleNoneProps).1 rfl).2.1,
   ((experiment_role_resolution roleSomeProps).2 { roleArn := "arn:explicit-role" } rfl).2.1⟩

/-- C3 counterexample: with logConfiguration present and the cloudwatch
channel's enabled flag false, construction throws while rendering the log
configuration (the unassigned resolved log group is dereferenced), so the
rendering does not complete without error. -/
theorem renderLogConfiguration_disabled_channel_fails :
    constructExperimentTemplate cwDisabledProps =
      Except.error "TypeError: Cannot read properties of undefined (reading logGroupArn)" :=
  rfl

/-- C3 amended: when logConfiguration is present and both enabled flags are
true, rendering emits the schema version and both sub-blocks, referencing
the resolved (explicit or auto-created) log group and bucket and the
optional prefix, and completes without error; when either flag is false the
render dereferences the unassigned resolved resource and construction
fails. -/
theorem renderLogConfiguration_amended (props : ExperimentTemplateProps)
    (lc : LogConfiguration) (hlc : props.logConfiguration = some lc) :
    (lc.cloudWatchLogLoggingEnabled = true → lc.s3LoggingEnabled = true →
       constructExperimentTemplate props =
         Except.ok (resolveDefaults props,
           { description := props.description
             roleArn := (resolveDefaults props).fisRole.roleArn
             stopConditions := renderConditions props.stopConditions
             targets := fixedTargets
             actions := fixedActions
             experimentOptions :=
               { accountTargeting := props.accountTargeting
                 emptyTargetResolutionMode := props.emptyTargetResolutionMode }
             logConfiguration := some
               { logSchemaVersion := lc.logSchemaVersion
                 cloudWatchLogsConfiguration :=
                   { logGroupArn := (lc.cloudwatchLogGroup.getD autoLogGroup).logGroupArn }
                 s3Configuration :=
                   { bucketName := (lc.s3LoggingBucket.getD autoBucket).bucketArn
                     prefixValue := lc.s3LoggingPrefixValue } } })) ∧
    ((lc.cloudWatchLogLoggingEnabled = false ∨ lc.s3LoggingEnabled = false) →
       ∃ e, constructExperimentTemplate props = Except.error e) := by
  constructor
  · intro hcw hs3
    have hg : (resolveDefaults props).cloudWatchLogsGroup
        = some (lc.cloudwatchLogGroup.getD autoLogGroup) := by
      cases h : lc.cloudwatchLogGroup <;> simp [resolveDefaults, hlc, hcw, h]
    have hb : (resolveDefaults props).s3LoggingBucket
        = some (lc.s3LoggingBucket.getD autoBucket) := by
      cases h : lc.s3LoggingBucket <;> simp [resolveDefaults, hlc, hs3, h]
    have hrender : renderLogConfiguration (resolveDefaults props) props lc =
        Except.ok
          { logSchemaVersion := lc.logSchemaVersion
            cloudWatchLogsConfiguration :=
              { logGroupArn := (lc.cloudwatchLogGroup.getD autoLogGroup).logGroupArn }
            s3Configuration :=
              { bucketName := (lc.s3LoggingBucket.getD autoBucket).bucketArn
                prefixValue := lc.s3LoggingPrefixValue } } := by
      simp [renderLogConfiguration, hg, hb, hlc]
    simp only [constructExperimentTemplate, createExperimentTemplate, hlc, hrender]
  · intro hflag
    cases hflag with
    | inl hcw =>
      have hgn : (resolveDefaults props).cloudWatchLogsGroup = none := by
        simp [resolveDefaults, hlc, hcw]
      exact ⟨"TypeError: Cannot read properties of undefined (reading logGroupArn)",
        by simp [constructExperimentTemplate, createExperimentTemplate, hlc,
                 renderLogConfiguration, hgn]⟩
    | inr hs3 =>
      have hbn : (resolveDefaults props).s3LoggingBucket = none := by
        simp [resolveDefaults, hlc, hs3]
      cases hgopt : (resolveDefaults props).cloudWatchLogsGroup with
      | none =>
        exact ⟨"TypeError: Cannot read properties of undefined (reading logGroupArn)",
          by simp [constructExperimentTemplate, createExperimentTemplate, hlc,
                   renderLogConfiguration, hgopt]⟩
      | some g =>
        exact ⟨"TypeError: Cannot read properties of undefined (reading bucketArn)",
          by simp [constructExperimentTemplate, createExperimentTemplate, hlc,
                   renderLogConfiguration, hgopt, hbn]⟩

/-- Witness for the amended C3: both flags true renders both sub-blocks
without error; the cloudwatch flag false makes construction fail. -/
theorem renderLogConfiguration_amended_witness :
    constructExperimentTemplate bothEnabledProps =
      Except.ok (resolveDefaults bothEnabledProps,
        { description := "d"
          roleArn := "arn:role"
          stopConditions := []
          targets := fixedTargets
          actions := fixedActions
          experimentOptions :=
            { accountTargeting := AccountTargeting.singleAccount
              emptyTargetResolutionMode := EmptyTargetResolutionMode.fail }
          logConfiguration := some
            { logSchemaVersion := 2
              cloudWatchLogsConfiguration := { logGroupArn := "arn:lg" }
              s3Configuration := { bucketName := "arn:bucket", prefixValue := some "pre" } } }) ∧
    (∃ e, constructExperimentTemplate cwDisabledProps = Except.error e) :=
  ⟨(renderLogConfiguration_amended bothEnabledProps bothEnabledLogConfig rfl).1 rfl rfl,
   (renderLogConfiguration_amended cwDisabledProps cwDisabledLogConfig rfl).2 (Or.inl rfl)⟩

/-- C2: the rendered targets and actions sections are the fixed literal
placeholder blocks for every input: two configurations differing in their
supplied targets and actions render identical targets and actions, and in
general the rendered pair always equals the fixed constants. -/
theorem rendered_targets_actions_constant :
    targetsPropsA.targets ≠ targetsPropsB.targets ∧
    targetsPropsA.actions ≠ targetsPropsB.actions ∧
    (∃ rA rB, constructExperimentTemplate targetsPropsA = Except.ok rA ∧
       constructExperimentTemplate targetsPropsB = Except.ok rB ∧
       rA.2.targets = rB.2.targets ∧ rA.2.actions = rB.2.actions ∧
       rA.2.targets = fixedTargets ∧ rA.2.actions = fixedActions) ∧
    (∀ st p, (createExperimentTemplate st p).map (fun r => (r.targets, r.actions)) =
       (createExperimentTemplate st p).map (fun _ => (fixedTargets, fixedActions))) := by
  refine ⟨by decide, by decide, ⟨_, _, rfl, rfl, rfl, rfl, rfl, rfl⟩, ?_⟩
  intro st p
  cases h : createExperimentTemplate st p with
  | error e => rfl
  | ok r =>
    have ht : r.targets = fixedTargets ∧ r.actions = fixedActions := by
      unfold createExperimentTemplate at h
      split at h
      · split at h
        · simp at h
        · simp only [Except.ok.injEq] at h
          rw [← h]
          exact ⟨rfl, rfl⟩
      · simp only [Except.ok.injEq] at h
        rw [← h]
        exact ⟨rfl, rfl⟩
    simp [h, Except.map, ht.1, ht.2]

end FisExperimentTemplate

namespace MemoryDbUser

/-- Witness for C5 at a concrete PASSWORD configuration with no
credential list: construction fails and no external call is made. -/
theorem user_construction_atomic_witness :
    (∃ e, userConstruct
        { userName := NameInput.absent, accessString := none,
          authenticationType := AuthenticationType.password, passwords := none }
      = Except.error e ∧
      userExternalCalls
        { userName := NameInput.absent, accessString := none,
          authenticationType := AuthenticationType.password, passwords := none } = []) ∨
    (∃ rendered, userConstruct
        { userName := NameInput.absent, accessString := none,
          authenticationType := AuthenticationType.password, passwords := none }
      = Except.ok (rendered, [rendered]) ∧
      (userExternalCalls
        { userName := NameInput.absent, accessString := none,
          authenticationType := AuthenticationType.password, passwords := none }).length = 1) :=
  user_construction_atomic
    { userName := NameInput.absent, accessString := none,
      authenticationType := AuthenticationType.password, passwords := none }

/-- Witness for C10 at a concrete formatting function and two distinct
user names. -/
theorem fromUserAttributes_arn_ignores_name_witness :
    (fromUserAttributes (fun p => "arn:aws:" ++ p.service ++ ":" ++ p.resource)
        { userName := "alice" }).userArn
      = (fromUserAttributes (fun p => "arn:aws:" ++ p.service ++ ":" ++ p.resource)
        { userName := "bob" }).userArn ∧
    (fromUserAttributes (fun p => "arn:aws:" ++ p.service ++ ":" ++ p.resource)
        { userName := "alice" }).userName = "alice" :=
  fromUserAttributes_arn_ignores_name
    (fun p => "arn:aws:" ++ p.service ++ ":" ++ p.resource)
    { userName := "alice" } { userName := "bob" }

end MemoryDbUser
